import Mathlib

/-!
Shallow embedding of the UF Marketplace backend.

This file embeds the Go backend of the campus-classifieds marketplace
(`backend/handlers/*.go`, `backend/models/*.go`, SQLite via GORM) as pure
Lean functions over an explicit database state, and proves the specified
properties about the handler functions `CreateChat`, `GetChatMessages`,
`GetListings`, `GetListing`, `UpdateListing`, `Register`, `Login` and
`MarkNotificationRead`.

Modelling conventions:
* Machine integers (`uint`, `int64`) are modelled as `Nat`; `float64`
  prices are modelled as `Int` (no claim depends on floating-point
  rounding, only on order comparisons).
* `time.Time` values are modelled as `Nat` clock ticks passed explicitly.
* Each table is a `List` kept in insertion order; since SQLite rowids are
  assigned in increasing order, insertion order coincides with
  primary-key order, so GORM's `First` (ordered by primary key) is
  `List.find?`.
* GORM soft deletion (`DeletedAt`) is modelled by a `deleted` flag on
  `Listing` (the only entity with an in-scope delete path relevant to the
  properties below); `First`/`Find` exclude soft-deleted rows.
* SQLite `TEXT` comparison under the default BINARY collation is exact
  (case-sensitive) string equality, which is `==` on `String`.
-/

set_option autoImplicit false

namespace Marketplace

/-- Model of `models.User` (part_008): only the fields the embedded handlers read. -/
structure User where
  id : Nat
  email : String
  password : String
  firstName : String
  lastName : String
  isAdmin : Bool
deriving Repr, DecidableEq

/-- Model of `models.Listing` (part_007). `status` is the `ListingStatus` string. -/
structure Listing where
  id : Nat
  createdAt : Nat
  title : String
  description : String
  price : Int
  categoryId : Nat
  sellerId : Nat
  status : String
  condition : String
  location : String
  views : Nat
  deleted : Bool
deriving Repr, DecidableEq

/-- Model of `models.ListingImage` (part_007). -/
structure ListingImage where
  id : Nat
  listingId : Nat
  imageURL : String
  isPrimary : Bool
deriving Repr, DecidableEq

/-- Model of `models.Chat` (models/message.go). -/
structure Chat where
  id : Nat
  createdAt : Nat
  updatedAt : Nat
  listingId : Nat
  buyerId : Nat
  sellerId : Nat
deriving Repr, DecidableEq

/-- Model of `models.Message` (models/message.go). -/
structure Message where
  id : Nat
  createdAt : Nat
  chatId : Nat
  senderId : Nat
  content : String
  isRead : Bool
  readAt : Option Nat
deriving Repr, DecidableEq

/-- Model of `models.Notification` (models/notification.go); `ntype` is the
`NotificationType` string. -/
structure Notification where
  id : Nat
  createdAt : Nat
  userId : Nat
  ntype : String
  title : String
  message : String
  link : String
  isRead : Bool
  readAt : Option Nat
deriving Repr, DecidableEq

/-- The legal `ListingStatus` constants of part_007. -/
def listingStatusValues : List String := ["active", "sold", "inactive"]

/-- The persistent store (`marketplace.db`): one list per table, in
rowid order, plus the next auto-increment id of each table. -/
structure DB where
  users : List User
  listings : List Listing
  listingImages : List ListingImage
  chats : List Chat
  messages : List Message
  notifications : List Notification
  nextUserId : Nat
  nextListingId : Nat
  nextImageId : Nat
  nextChatId : Nat
  nextMessageId : Nat
  nextNotificationId : Nat
deriving Repr, DecidableEq

/-- A freshly migrated database (SQLite rowids start at 1). -/
def emptyDB : DB :=
  { users := [], listings := [], listingImages := [], chats := [],
    messages := [], notifications := [],
    nextUserId := 1, nextListingId := 1, nextImageId := 1,
    nextChatId := 1, nextMessageId := 1, nextNotificationId := 1 }

/-! ## Chat handlers (part_010) -/

/-- Input `CreateChatInput` (part_010): both fields carry `binding:"required"`,
which rejects the zero value (`0` for `uint`, `""` for `string`). -/
structure CreateChatInput where
  listingId : Nat
  message : String
deriving Repr, DecidableEq

/-- Result of `CreateChat`: HTTP status, the `chat_id` of the JSON body
when present, the created message, and the post-state. -/
structure ChatResult where
  status : Nat
  chatId : Option Nat
  message : Option Message
  db : DB
deriving Repr, DecidableEq

/-- Handler `handlers.CreateChat` (part_010:74-153).  Looks up the listing
(404 if absent), rejects self-chat (400), then either appends a message
to the existing `(listing_id, buyer_id)` chat and bumps its
`updated_at` (200, no notification) or creates chat + first message +
seller notification (201). -/
def CreateChat (db : DB) (userID : Nat) (input : CreateChatInput) (now : Nat) :
    ChatResult :=
  if input.listingId == 0 || input.message == "" then
    { status := 400, chatId := none, message := none, db := db }
  else
    match db.listings.find? (fun l => l.id == input.listingId && !l.deleted) with
    | none => { status := 404, chatId := none, message := none, db := db }
    | some listing =>
      if listing.sellerId == userID then
        { status := 400, chatId := none, message := none, db := db }
      else
        match db.chats.find? (fun ch =>
            ch.listingId == input.listingId && ch.buyerId == userID) with
        | some existingChat =>
          let msg : Message :=
            { id := db.nextMessageId, createdAt := now,
              chatId := existingChat.id, senderId := userID,
              content := input.message, isRead := false, readAt := none }
          { status := 200, chatId := some existingChat.id, message := some msg,
            db := { db with
              messages := db.messages ++ [msg],
              nextMessageId := db.nextMessageId + 1,
              chats := db.chats.map (fun ch =>
                if ch.id == existingChat.id then { ch with updatedAt := now }
                else ch) } }
        | none =>
          let chat : Chat :=
            { id := db.nextChatId, createdAt := now, updatedAt := now,
              listingId := input.listingId, buyerId := userID,
              sellerId := listing.sellerId }
          let msg : Message :=
            { id := db.nextMessageId, createdAt := now, chatId := chat.id,
              senderId := userID, content := input.message,
              isRead := false, readAt := none }
          let notif : Notification :=
            { id := db.nextNotificationId, createdAt := now,
              userId := listing.sellerId, ntype := "new_message",
              title := "New Message",
              message := "You have a new message about your listing: " ++ listing.title,
              link := "/chat/" ++ toString chat.id,
              isRead := false, readAt := none }
          { status := 201, chatId := some chat.id, message := some msg,
            db := { db with
              chats := db.chats ++ [chat],
              nextChatId := db.nextChatId + 1,
              messages := db.messages ++ [msg],
              nextMessageId := db.nextMessageId + 1,
              notifications := db.notifications ++ [notif],
              nextNotificationId := db.nextNotificationId + 1 } }

/-- The per-row effect of the bulk `Updates` in `GetChatMessages`
(part_010:216-218): rows matching
`chat_id = ? AND sender_id != ? AND is_read = false` become read at `now`. -/
def markRead (userID chatId now : Nat) (m : Message) : Message :=
  if m.chatId == chatId && m.senderId != userID && !m.isRead then
    { m with isRead := true, readAt := some now }
  else m

/-- Result of `GetChatMessages`. -/
structure MessagesResult where
  status : Nat
  messages : List Message
  db : DB
deriving Repr, DecidableEq

/-- Handler `handlers.GetChatMessages` (part_010:186-221): 404 if the chat is
absent, 403 if the caller is not a participant; otherwise returns the
chat's messages (fetched before the update, in `created_at` order, which
for our monotone clock is insertion order) and marks all unread messages
not sent by the caller as read. -/
def GetChatMessages (db : DB) (userID : Nat) (chatId : Nat) (now : Nat) :
    MessagesResult :=
  match db.chats.find? (fun ch => ch.id == chatId) with
  | none => { status := 404, messages := [], db := db }
  | some chat =>
    if chat.buyerId != userID && chat.sellerId != userID then
      { status := 403, messages := [], db := db }
    else
      { status := 200,
        messages := db.messages.filter (fun m => m.chatId == chatId),
        db := { db with
          messages := db.messages.map (markRead userID chatId now) } }

/-! ## Listing handlers (backend/handlers/listing.go) -/

/-- Whether the character list starting here begins with `pat`
(helper for SQL `LIKE`). -/
def charsMatchAt : List Char → List Char → Bool
  | [], _ => true
  | _ :: _, [] => false
  | p :: ps, s :: ss => p == s && charsMatchAt ps ss

/-- Whether `pat` occurs as a contiguous sublist. -/
def charsContain (pat : List Char) : List Char → Bool
  | [] => pat.isEmpty
  | s :: ss => charsMatchAt pat (s :: ss) || charsContain pat ss

/-- SQL `col LIKE '%pat%'`: substring containment. -/
def strContains (s pat : String) : Bool := charsContain pat.toList s.toList

/-- Go's `strings.ToLower`, restricted to the per-character lowering the
model needs. -/
def strToLower (s : String) : String := String.mk (s.toList.map Char.toLower)

/-- Go's `strings.HasSuffix`. -/
def strEndsWith (s suf : String) : Bool :=
  charsMatchAt suf.toList.reverse s.toList.reverse

/-- Query parameters of `GET /listings` (listing.go:85-93).  Go encodes
absent numeric filters as the empty string; we use `Option`.  `page` and
`limit` parse to `int`; the properties below concern the 1-based pages
and positive limits the endpoint is defined for. -/
structure ListingQuery where
  page : Nat
  limit : Nat
  search : String
  categoryId : Option Nat
  minPrice : Option Int
  maxPrice : Option Int
  condition : String
  sortBy : String
  sortOrder : String
deriving Repr, DecidableEq

/-- The WHERE predicate built in listing.go:97-114: `status = 'active'`
always, then each filter only when supplied. -/
def matchesFilter (q : ListingQuery) (l : Listing) : Bool :=
  !l.deleted && l.status == "active"
  && (q.search == "" || (strContains l.title q.search || strContains l.description q.search))
  && (match q.categoryId with | none => true | some c => l.categoryId == c)
  && (match q.minPrice with | none => true | some p => decide (p ≤ l.price))
  && (match q.maxPrice with | none => true | some p => decide (l.price ≤ p))
  && (q.condition == "" || l.condition == q.condition)

/-- Insert into a `le`-sorted list (helper for `ORDER BY`). -/
def insertLe {α : Type} (le : α → α → Bool) (x : α) : List α → List α
  | [] => [x]
  | y :: ys => if le x y then x :: y :: ys else y :: insertLe le x ys

/-- Insertion sort modelling SQL `ORDER BY` (stable orderings beyond the
comparison key do not matter to any property below; only that sorting is
a length- and membership-preserving reordering). -/
def sortLe {α : Type} (le : α → α → Bool) : List α → List α
  | [] => []
  | x :: xs => insertLe le x (sortLe le xs)

/-- The `ORDER BY sortBy sortOrder` comparison of listing.go:126: sort
key `price` or the default `created_at` (the interpolated column name
defaults to `created_at` via `DefaultQuery`), direction `asc`/`desc`
(`desc` is the default). -/
def listingLe (sortKey ord : String) (a b : Listing) : Bool :=
  let ka : Int := if sortKey == "price" then a.price else Int.ofNat a.createdAt
  let kb : Int := if sortKey == "price" then b.price else Int.ofNat b.createdAt
  if ord == "asc" then decide (ka ≤ kb) else decide (kb ≤ ka)

/-- The JSON body of `GET /listings` (listing.go:136-142). -/
structure ListingsResult where
  listings : List Listing
  total : Nat
  page : Nat
  limit : Nat
  pages : Nat
deriving Repr, DecidableEq

/-- Handler `handlers.GetListings` (listing.go:84-143): filter (always
status=active), count the total before paging, sort, then apply
`OFFSET (page-1)*limit LIMIT limit`; `pages = (total + limit - 1) / limit`
with integer division. -/
def GetListings (db : DB) (q : ListingQuery) : ListingsResult :=
  let offset := (q.page - 1) * q.limit
  let matched := db.listings.filter (matchesFilter q)
  let total := matched.length
  let sorted := sortLe (listingLe q.sortBy q.sortOrder) matched
  { listings := (sorted.drop offset).take q.limit,
    total := total, page := q.page, limit := q.limit,
    pages := (total + q.limit - 1) / q.limit }

/-- Result of `GET /listings/:id` and of `PUT /listings/:id`. -/
structure ListingResult where
  status : Nat
  listing : Option Listing
  db : DB
deriving Repr, DecidableEq

/-- Handler `handlers.GetListing` (listing.go:145-169): fetch by id with no
status filter (soft-deleted rows excluded), 404 if absent; on success
increments the view counter and returns the listing. -/
def GetListing (db : DB) (lid : Nat) : ListingResult :=
  match db.listings.find? (fun l => l.id == lid && !l.deleted) with
  | none => { status := 404, listing := none, db := db }
  | some listing =>
    let updated := { listing with views := listing.views + 1 }
    { status := 200, listing := some updated,
      db := { db with listings := db.listings.map (fun l =>
        if l.id == listing.id then updated else l) } }

/-- Input `UpdateListingInput` (listing.go:25-34): no binding constraints. -/
structure UpdateListingInput where
  title : String
  description : String
  price : Int
  categoryId : Nat
  condition : String
  location : String
  status : String
  images : List String
deriving Repr, DecidableEq

/-- The "non-empty wins" merge of listing.go:198-219: each field is
applied only when it differs from Go's zero value.  The `status` string
is stored verbatim with no membership check against `ListingStatus`. -/
def applyListingUpdate (input : UpdateListingInput) (l : Listing) : Listing :=
  let l := if input.title != "" then { l with title := input.title } else l
  let l := if input.description != "" then { l with description := input.description } else l
  let l := if decide (0 < input.price) then { l with price := input.price } else l
  let l := if decide (0 < input.categoryId) then { l with categoryId := input.categoryId } else l
  let l := if input.condition != "" then { l with condition := input.condition } else l
  let l := if input.location != "" then { l with location := input.location } else l
  let l := if input.status != "" then { l with status := input.status } else l
  l

/-- Handler `handlers.UpdateListing` (listing.go:171-242): 404 if absent, 403
unless the caller is the seller, merge non-zero fields, save, and if an
image list was supplied delete-all-then-reinsert the image set with
index 0 primary. -/
def UpdateListing (db : DB) (userID lid : Nat) (input : UpdateListingInput) :
    ListingResult :=
  match db.listings.find? (fun l => l.id == lid && !l.deleted) with
  | none => { status := 404, listing := none, db := db }
  | some listing =>
    if listing.sellerId != userID then { status := 403, listing := none, db := db }
    else
      let updated := applyListingUpdate input listing
      let db1 := { db with listings := db.listings.map (fun l =>
        if l.id == listing.id then updated else l) }
      let db2 :=
        if input.images.length > 0 then
          { db1 with
            listingImages :=
              (db1.listingImages.filter (fun im => im.listingId != listing.id))
              ++ (List.range input.images.length).map (fun i =>
                { id := db1.nextImageId + i, listingId := listing.id,
                  imageURL := input.images.getD i "", isPrimary := i == 0 }),
            nextImageId := db1.nextImageId + input.images.length }
        else db1
      { status := 200, listing := some updated, db := db2 }

/-! ## Auth handlers (part_009) and the missing `utils` package -/

/-- Modelled from the spec: `utils.HashPassword` lives in the `utils`
package which is not under src/ (only its callers are).  The spec says
registration persists a one-way salted password hash and login verifies
the presented password against it.  We model hashing as a deterministic
tagging function whose verification succeeds exactly when the same
plaintext is presented, which is the contract both claims rely on. -/
def hashPassword (plain : String) : String := "bcrypt$" ++ plain

/-- Modelled from the spec: `utils.CheckPassword` — verification
succeeds exactly for the plaintext that was hashed. -/
def checkPassword (plain stored : String) : Bool := stored == hashPassword plain

/-- Input `RegisterInput` (part_009:13-18): `binding:"required,email"` on the
email (modelled as: contains an `@`), `min=6` on the password, and
required (non-empty) names. -/
structure RegisterInput where
  email : String
  password : String
  firstName : String
  lastName : String
deriving Repr, DecidableEq

/-- The `ShouldBindJSON` validation of `RegisterInput`. -/
def registerBindingOk (input : RegisterInput) : Bool :=
  input.email.toList.contains '@' && decide (6 ≤ input.password.length)
  && input.firstName != "" && input.lastName != ""

/-- Result of register/login: HTTP status, error body, post-state. -/
structure AuthResult where
  status : Nat
  errorMsg : String
  db : DB
deriving Repr, DecidableEq

/-- The user row built by `Register` (part_009:72-77): the email is
stored lowercased, the password as its hash. -/
def mkUser (db : DB) (input : RegisterInput) : User :=
  { id := db.nextUserId, email := strToLower input.email,
    password := hashPassword input.password,
    firstName := input.firstName, lastName := input.lastName,
    isAdmin := false }

/-- Handler `handlers.Register` (part_009:30-95).  Note two asymmetries taken
verbatim from the source: the duplicate check (part_009:59) compares the
RAW input email against stored emails under SQLite's case-sensitive
BINARY collation, while the created row (part_009:73) stores
`strings.ToLower(input.Email)`; and the `uniqueIndex` on `users.email`
makes `Create` fail (HTTP 500) on an exact-string duplicate that the
raw-email check missed. -/
def Register (db : DB) (input : RegisterInput) : AuthResult :=
  if !(registerBindingOk input) then
    { status := 400, errorMsg := "Please fill in all required fields", db := db }
  else if !(strEndsWith (strToLower input.email) "@ufl.edu") then
    { status := 400, errorMsg := "Must use a valid UF email (@ufl.edu)", db := db }
  else
    match db.users.find? (fun u => u.email == input.email) with
    | some _ =>
      { status := 409,
        errorMsg := "An account with this email already exists. Please login or use a different email.",
        db := db }
    | none =>
      let user : User := mkUser db input
      if db.users.any (fun v => v.email == user.email) then
        { status := 500, errorMsg := "Error creating user", db := db }
      else
        { status := 201, errorMsg := "",
          db := { db with users := db.users ++ [user],
                          nextUserId := db.nextUserId + 1 } }

/-- The `ShouldBindJSON` validation of `LoginInput` (part_009:20-23). -/
def loginBindingOk (email password : String) : Bool :=
  email.toList.contains '@' && password != ""

/-- The externally observable response of `POST /auth/login`
(`Login` never writes to the store). -/
structure LoginResult where
  status : Nat
  errorMsg : String
deriving Repr, DecidableEq

/-- Handler `handlers.Login` (part_009:97-134): lookup by lowered email; both
the no-such-user and the wrong-password branches return 401 with the
identical message. -/
def Login (db : DB) (email password : String) : LoginResult :=
  if !(loginBindingOk email password) then
    { status := 400, errorMsg := "Please enter email and password" }
  else
    match db.users.find? (fun u => u.email == strToLower email) with
    | none =>
      { status := 401, errorMsg := "Invalid email or password. Please try again." }
    | some user =>
      if !(checkPassword password user.password) then
        { status := 401, errorMsg := "Invalid email or password. Please try again." }
      else
        { status := 200, errorMsg := "" }

/-! ## Notification handlers (backend/handlers/notification.go) -/

/-- Result of `PUT /notifications/:id/read`. -/
structure SimpleResult where
  status : Nat
  db : DB
deriving Repr, DecidableEq

/-- The row update performed by `MarkNotificationRead`
(notification.go:65-69): the addressed row gets `is_read := true` and
`read_at := now` — unconditionally, also when it was already read. -/
def markNotifRead (nid now : Nat) (n : Notification) : Notification :=
  if n.id == nid then { n with isRead := true, readAt := some now } else n

/-- Handler `handlers.MarkNotificationRead` (notification.go:45-72): 404 if the
notification is absent, 403 unless the caller owns it, then the update
above and 200. -/
def MarkNotificationRead (db : DB) (userID nid now : Nat) : SimpleResult :=
  match db.notifications.find? (fun n => n.id == nid) with
  | none => { status := 404, db := db }
  | some notif =>
    if notif.userId != userID then { status := 403, db := db }
    else
      { status := 200,
        db := { db with
          notifications := db.notifications.map (markNotifRead nid now) } }

/-! ## Concrete states used to evaluate the handlers -/

/-- An active listing owned by seller 2. -/
def exListing : Listing :=
  { id := 1, createdAt := 0, title := "Bike", description := "", price := 50,
    categoryId := 1, sellerId := 2, status := "active", condition := "good",
    location := "", views := 0, deleted := false }

/-- The chat of buyer 3 about `exListing`. -/
def exChat : Chat :=
  { id := 1, createdAt := 0, updatedAt := 0, listingId := 1, buyerId := 3,
    sellerId := 2 }

/-- State with `exListing` and an already-existing chat for buyer 3. -/
def chatDB : DB :=
  { emptyDB with listings := [exListing], nextListingId := 2,
                 chats := [exChat], nextChatId := 2 }

/-- State with `exListing` and no chats yet. -/
def freshChatDB : DB :=
  { emptyDB with listings := [exListing], nextListingId := 2 }

/-- The first create-or-append request of buyer 3. -/
def firstMsgInput : CreateChatInput := { listingId := 1, message := "hi" }

/-- A sold listing. -/
def soldListing : Listing := { exListing with id := 4, status := "sold" }

/-- State holding only `soldListing`. -/
def soldDB : DB := { emptyDB with listings := [soldListing], nextListingId := 5 }

/-- An already-read notification of user 7, read at tick 5. -/
def readNotif : Notification :=
  { id := 1, createdAt := 0, userId := 7, ntype := "new_message",
    title := "New Message", message := "m", link := "/chat/1",
    isRead := true, readAt := some 5 }

/-- State holding only `readNotif`. -/
def notifDB : DB :=
  { emptyDB with notifications := [readNotif], nextNotificationId := 2 }

/-- Listing `exListing` re-owned by seller 7. -/
def ownedListing : Listing := { exListing with sellerId := 7 }

/-- State holding only `ownedListing`. -/
def ownedDB : DB :=
  { emptyDB with listings := [ownedListing], nextListingId := 2 }

/-- A partial update carrying only a free-form status string. -/
def bananaInput : UpdateListingInput :=
  { title := "", description := "", price := 0, categoryId := 0,
    condition := "", location := "", status := "banana", images := [] }

/-- A registration with mixed-case email. -/
def regAlice : RegisterInput :=
  { email := "Alice@ufl.edu", password := "Abc123!",
    firstName := "Alice", lastName := "Smith" }

/-- The same address re-registered in upper case. -/
def regAliceUpper : RegisterInput :=
  { email := "ALICE@ufl.edu", password := "Xyz789!",
    firstName := "Alice", lastName := "Smith" }

/-- The i-th of three active listings for the pagination scenario. -/
def pageListing (i : Nat) : Listing := { exListing with id := i, createdAt := i }

/-- State with three active listings. -/
def pageDB : DB :=
  { emptyDB with listings := [pageListing 1, pageListing 2, pageListing 3],
                 nextListingId := 4 }

/-- A filterless query with page size 2; page 3 is past the end. -/
def pageQuery : ListingQuery :=
  { page := 3, limit := 2, search := "", categoryId := none, minPrice := none,
    maxPrice := none, condition := "", sortBy := "created_at",
    sortOrder := "desc" }

/-- An unread message from buyer 3 in chat 1. -/
def unreadMsg : Message :=
  { id := 1, createdAt := 1, chatId := 1, senderId := 3, content := "hi",
    isRead := false, readAt := none }

/-- An unread message from seller 2 in chat 1. -/
def sellerMsg : Message :=
  { id := 2, createdAt := 2, chatId := 1, senderId := 2, content := "yo",
    isRead := false, readAt := none }

/-- State `chatDB` with one unread message from each participant. -/
def msgDB : DB :=
  { chatDB with messages := [unreadMsg, sellerMsg], nextMessageId := 3 }

/-- A registered user with a stored password hash. -/
def bob : User :=
  { id := 1, email := "bob@ufl.edu", password := hashPassword "Abc123!",
    firstName := "Bob", lastName := "B", isAdmin := false }

/-- State holding only `bob`. -/
def userDB : DB := { emptyDB with users := [bob], nextUserId := 2 }

/-! ## General lemmas about the embedded store operations -/

/-- Lookup `find?` commutes with a row update that does not change what the
predicate inspects. -/
theorem find?_map_pred_eq {α : Type} (f : α → α) (p : α → Bool) (l : List α)
    (h : ∀ x, p (f x) = p x) :
    (l.map f).find? p = (l.find? p).map f := by
  rw [List.find?_map]
  have hc : p ∘ f = p := funext h
  rw [hc]

/-- Inserting into a sorted list grows its length by one. -/
theorem length_insertLe {α : Type} (le : α → α → Bool) (x : α) (l : List α) :
    (insertLe le x l).length = l.length + 1 := by
  induction l with
  | nil => rfl
  | cons y ys ih =>
    simp only [insertLe]
    split
    · rfl
    · simp [ih]

/-- Insertion sort preserves length. -/
theorem length_sortLe {α : Type} (le : α → α → Bool) (l : List α) :
    (sortLe le l).length = l.length := by
  induction l with
  | nil => rfl
  | cons x xs ih => simp [sortLe, length_insertLe, ih]

/-- Membership in an insertion. -/
theorem mem_insertLe {α : Type} (le : α → α → Bool) (x a : α) (l : List α) :
    a ∈ insertLe le x l ↔ a = x ∨ a ∈ l := by
  induction l with
  | nil => simp [insertLe]
  | cons y ys ih =>
    simp only [insertLe]
    split
    · simp [List.mem_cons]
    · simp only [List.mem_cons, ih]
      tauto

/-- Insertion sort preserves membership. -/
theorem mem_sortLe {α : Type} (le : α → α → Bool) (a : α) (l : List α) :
    a ∈ sortLe le l ↔ a ∈ l := by
  induction l with
  | nil => exact Iff.rfl
  | cons x xs ih => simp [sortLe, mem_insertLe, ih, List.mem_cons]

/-- Splitting a list into `n` consecutive chunks of size `k` covers it
exactly when `n * k` bounds its length. -/
theorem sum_chunk_lengths {α : Type} (k : Nat) :
    ∀ (n : Nat) (l : List α), l.length ≤ n * k →
      ((List.range n).map (fun i => ((l.drop (i * k)).take k).length)).sum
        = l.length := by
  intro n
  induction n with
  | zero =>
    intro l h
    simp only [Nat.zero_mul, Nat.le_zero] at h
    simp [h]
  | succ n ih =>
    intro l h
    rw [List.range_succ_eq_map, List.map_cons, List.sum_cons, List.map_map]
    have hfun : ((fun i => ((l.drop (i * k)).take k).length) ∘ Nat.succ)
        = fun i => (((l.drop k).drop (i * k)).take k).length := by
      funext i
      simp only [Function.comp, List.drop_drop]
      rw [Nat.succ_mul, Nat.add_comm]
    rw [Nat.succ_mul] at h
    rw [hfun, ih (l.drop k) (by rw [List.length_drop]; omega)]
    simp only [Nat.zero_mul, List.drop_zero, List.length_take, List.length_drop]
    rw [Nat.min_def]
    split <;> omega

/-- Bound `n ≤ ceil(n / k) * k` for the `(n + k - 1) / k` ceiling. -/
theorem le_ceil_mul (n k : Nat) (hk : 1 ≤ k) : n ≤ ((n + k - 1) / k) * k := by
  rcases Nat.eq_zero_or_pos n with h0 | hpos
  · simp [h0]
  · have hn : n + k - 1 = (n - 1) + k := by omega
    rw [hn, Nat.add_div_right _ hk]
    have hdm := Nat.div_add_mod (n - 1) k
    have hlt : (n - 1) % k < k := Nat.mod_lt _ hk
    rw [Nat.add_mul, Nat.one_mul, Nat.mul_comm]
    omega

/-- Appending rows does not change a failed lookup's continuation. -/
theorem find?_append_none {α : Type} (l1 l2 : List α) (p : α → Bool)
    (h : l1.find? p = none) : (l1 ++ l2).find? p = l2.find? p := by
  rw [List.find?_append, h]
  rfl

/-- Characterization of `CreateChat` in the appending branch: when the
listing exists, the caller is not its seller and a chat for
`(listing_id, caller)` exists, the call returns 200 with that chat's id,
leaves the listings table unchanged and only touches the found chat's
`updated_at`. -/
theorem createChat_append_case (s : DB) (uid t : Nat) (inp : CreateChatInput)
    (listing : Listing) (c : Chat)
    (hb : (inp.listingId == 0 || inp.message == "") = false)
    (hl : s.listings.find? (fun l => l.id == inp.listingId && !l.deleted)
      = some listing)
    (hns : listing.sellerId ≠ uid)
    (hc : s.chats.find? (fun ch =>
      ch.listingId == inp.listingId && ch.buyerId == uid) = some c) :
    (CreateChat s uid inp t).status = 200 ∧
    (CreateChat s uid inp t).chatId = some c.id ∧
    (CreateChat s uid inp t).db.listings = s.listings ∧
    (CreateChat s uid inp t).db.chats
      = s.chats.map (fun x =>
          if x.id == c.id then { x with updatedAt := t } else x) := by
  have hsb : (listing.sellerId == uid) = false := by simp [hns]
  refine ⟨?_, ?_, ?_, ?_⟩ <;> simp [CreateChat, hb, hl, hsb, hc]

/-- Characterization of `CreateChat` in the creating branch: when the
listing exists, the caller is not its seller and no chat for
`(listing_id, caller)` exists yet, the call returns 201 with the fresh
chat id, leaves the listings table unchanged and appends the new chat
row. -/
theorem createChat_create_case (s : DB) (uid t : Nat) (inp : CreateChatInput)
    (listing : Listing)
    (hb : (inp.listingId == 0 || inp.message == "") = false)
    (hl : s.listings.find? (fun l => l.id == inp.listingId && !l.deleted)
      = some listing)
    (hns : listing.sellerId ≠ uid)
    (hc : s.chats.find? (fun ch =>
      ch.listingId == inp.listingId && ch.buyerId == uid) = none) :
    (CreateChat s uid inp t).status = 201 ∧
    (CreateChat s uid inp t).chatId = some s.nextChatId ∧
    (CreateChat s uid inp t).db.listings = s.listings ∧
    (CreateChat s uid inp t).db.chats
      = s.chats ++ [{ id := s.nextChatId, createdAt := t, updatedAt := t,
                      listingId := inp.listingId, buyerId := uid,
                      sellerId := listing.sellerId }] := by
  have hsb : (listing.sellerId == uid) = false := by simp [hns]
  refine ⟨?_, ?_, ?_, ?_⟩ <;> simp [CreateChat, hb, hl, hsb, hc]

/-- In a table whose ids are distinct, the primary-key lookup used by
`GetListing`/`UpdateListing` returns exactly the undeleted member row. -/
theorem find?_listing_of_mem (l : Listing) :
    ∀ (ls : List Listing), (ls.map Listing.id).Nodup → l ∈ ls →
      l.deleted = false →
      ls.find? (fun x => x.id == l.id && !x.deleted) = some l := by
  intro ls
  induction ls with
  | nil => intro _ hmem; cases hmem
  | cons x t ih =>
    intro hnd hmem hdel
    rw [List.map_cons, List.nodup_cons] at hnd
    rcases List.mem_cons.mp hmem with rfl | hmem'
    · rw [List.find?_cons]
      have hp : (l.id == l.id && !l.deleted) = true := by simp [hdel]
      rw [hp]
    · have hid : x.id ≠ l.id := by
        intro he
        exact hnd.1 (he ▸ List.mem_map_of_mem Listing.id hmem')
      rw [List.find?_cons]
      have hp : (x.id == l.id && !x.deleted) = false := by simp [hid]
      rw [hp]
      exact ih hnd.2 hmem' hdel

/-! ## The claimed properties -/

/-- C10: the listing update operation does not validate the status
field — the owning seller can supply the non-empty status string
"banana" and it is stored verbatim, leaving the stored status outside
{active, sold, inactive}. -/
theorem updateListing_stores_unvalidated_status :
    (UpdateListing ownedDB 7 1 bananaInput).status = 200 ∧
    ((UpdateListing ownedDB 7 1 bananaInput).db.listings.map Listing.status)
      = ["banana"] ∧
    "banana" ∉ listingStatusValues := by decide

/-- C5 counterexample: a create-or-append request whose `listing_id`
references no existing listing is answered with HTTP 404, not the
claimed 400. -/
theorem createChat_missing_listing_counterexample :
    (CreateChat emptyDB 1 { listingId := 5, message := "hi" } 0).status = 404 ∧
    (CreateChat emptyDB 1 { listingId := 5, message := "hi" } 0).status ≠ 400 := by
  decide

/-- C5 (amended): a create-or-append request whose `listing_id`
references no existing listing fails with NotFound (HTTP 404) and
leaves the store unchanged. -/
theorem createChat_missing_listing_is_not_found (db : DB) (userID now : Nat)
    (input : CreateChatInput)
    (hbind : (input.listingId == 0 || input.message == "") = false)
    (hmiss : db.listings.find? (fun l => l.id == input.listingId && !l.deleted)
      = none) :
    (CreateChat db userID input now).status = 404 ∧
    (CreateChat db userID input now).db = db := by
  simp [CreateChat, hbind, hmiss]

/-- C5 witness: the amended theorem evaluated on the empty store. -/
theorem createChat_missing_listing_witness :
    ((({ listingId := 5, message := "hi" } : CreateChatInput).listingId == 0
        || ({ listingId := 5, message := "hi" } : CreateChatInput).message == "")
      = false) ∧
    ((CreateChat emptyDB 1 { listingId := 5, message := "hi" } 0).status = 404 ∧
     (CreateChat emptyDB 1 { listingId := 5, message := "hi" } 0).db = emptyDB) :=
  ⟨by decide,
   createChat_missing_listing_is_not_found emptyDB 1 0
     { listingId := 5, message := "hi" } (by decide) (by decide)⟩

/-- C7 counterexample: marking an already-read notification read again
is not a no-op — it overwrites the stored read timestamp (here `some 5`
becomes `some 10`), so the notification state is changed. -/
theorem markNotificationRead_not_noop_counterexample :
    (MarkNotificationRead notifDB 7 1 10).status = 200 ∧
    (MarkNotificationRead notifDB 7 1 10).db.notifications
      ≠ notifDB.notifications ∧
    ((MarkNotificationRead notifDB 7 1 10).db.notifications.map
      Notification.readAt) = [some 10] ∧
    (notifDB.notifications.map Notification.readAt) = [some 5] := by decide

/-- C7 (amended): marking an already-read owned notification read again
succeeds (HTTP 200, not an error) and keeps `is_read=true`, but it
overwrites the read timestamp with the current time (so the state is
unchanged only when the clock equals the stored timestamp); all other
notifications are untouched. -/
theorem markNotificationRead_already_read_succeeds
    (db : DB) (userID nid now : Nat) (notif : Notification)
    (hfind : db.notifications.find? (fun n => n.id == nid) = some notif)
    (hown : notif.userId = userID)
    (hread : notif.isRead = true) :
    (MarkNotificationRead db userID nid now).status = 200 ∧
    (MarkNotificationRead db userID nid now).db.notifications
      = db.notifications.map (markNotifRead nid now) ∧
    (∀ n : Notification, n.id ≠ nid → markNotifRead nid now n = n) ∧
    markNotifRead nid now notif = { notif with readAt := some now } := by
  have hownb : (notif.userId != userID) = false := by simp [hown]
  have hid : (notif.id == nid) = true := by
    have := List.find?_some hfind
    simpa using this
  refine ⟨?_, ?_, ?_, ?_⟩
  · simp [MarkNotificationRead, hfind, hownb]
  · simp [MarkNotificationRead, hfind, hownb]
  · intro n hn
    simp [markNotifRead, hn]
  · simp [markNotifRead, hid, hread]

/-- C7 witness: the amended theorem evaluated on a store holding one
already-read notification of user 7, re-marked at tick 10. -/
theorem markNotificationRead_already_read_witness :
    (notifDB.notifications.find? (fun n => n.id == 1) = some readNotif) ∧
    (readNotif.userId = 7) ∧ (readNotif.isRead = true) ∧
    ((MarkNotificationRead notifDB 7 1 10).status = 200 ∧
     (MarkNotificationRead notifDB 7 1 10).db.notifications
       = notifDB.notifications.map (markNotifRead 1 10) ∧
     (∀ n : Notification, n.id ≠ 1 → markNotifRead 1 10 n = n) ∧
     markNotifRead 1 10 readNotif = { readNotif with readAt := some 10 }) :=
  ⟨by decide, by decide, by decide,
   markNotificationRead_already_read_succeeds notifDB 7 1 10 readNotif
     (by decide) (by decide) (by decide)⟩

/-- C9: the login failure responses for "email exists but password is
wrong" and "no user with that email" are identical — same 401 status
and the same error message — so the response does not reveal whether
the email is registered. -/
theorem login_failures_indistinguishable (db1 db2 : DB)
    (e1 p1 e2 p2 : String) (u : User)
    (hb1 : loginBindingOk e1 p1 = true) (hb2 : loginBindingOk e2 p2 = true)
    (h1 : db1.users.find? (fun v => v.email == strToLower e1) = none)
    (h2 : db2.users.find? (fun v => v.email == strToLower e2) = some u)
    (hw : checkPassword p2 u.password = false) :
    Login db1 e1 p1 = Login db2 e2 p2 ∧
    (Login db1 e1 p1).status = 401 ∧
    (Login db1 e1 p1).errorMsg
      = "Invalid email or password. Please try again." := by
  have r1 : Login db1 e1 p1
      = { status := 401,
          errorMsg := "Invalid email or password. Please try again." } := by
    simp [Login, hb1, h1]
  have r2 : Login db2 e2 p2
      = { status := 401,
          errorMsg := "Invalid email or password. Please try again." } := by
    simp [Login, hb2, h2, hw]
  rw [r1, r2]
  exact ⟨rfl, rfl, rfl⟩

/-- C9 witness: an unknown email against the empty store and a wrong
password against `bob`'s account produce the same response. -/
theorem login_failures_indistinguishable_witness :
    (emptyDB.users.find? (fun v => v.email == strToLower "nobody@ufl.edu")
      = none) ∧
    (userDB.users.find? (fun v => v.email == strToLower "bob@ufl.edu")
      = some bob) ∧
    (checkPassword "wrong" bob.password = false) ∧
    (Login emptyDB "nobody@ufl.edu" "x" = Login userDB "bob@ufl.edu" "wrong" ∧
     (Login emptyDB "nobody@ufl.edu" "x").status = 401 ∧
     (Login emptyDB "nobody@ufl.edu" "x").errorMsg
       = "Invalid email or password. Please try again.") :=
  ⟨by decide, by decide, by decide,
   login_failures_indistinguishable emptyDB userDB "nobody@ufl.edu" "x"
     "bob@ufl.edu" "wrong" bob (by decide) (by decide) (by decide) (by decide)
     (by decide)⟩

/-- C1 counterexample: buyer 3 appends to the already-existing chat on
listing 1 — the call succeeds (HTTP 200) yet the notifications table,
empty before the call, is still empty afterwards: the append branch
creates no notification for the seller. -/
theorem createChat_append_no_notification_counterexample :
    (CreateChat chatDB 3 firstMsgInput 10).status = 200 ∧
    chatDB.notifications = [] ∧
    (CreateChat chatDB 3 firstMsgInput 10).db.notifications = [] := by decide

/-- C1 (amended): a successful create-or-append call creates a
notification for the listing's seller only in the branch that creates a
new chat (HTTP 201); in the branch that appends to an existing chat
(HTTP 200) the notifications table is left unchanged. -/
theorem createChat_notifies_seller_only_on_new_chat
    (db : DB) (userID now : Nat) (input : CreateChatInput) (listing : Listing)
    (hbind : (input.listingId == 0 || input.message == "") = false)
    (hlist : db.listings.find? (fun l => l.id == input.listingId && !l.deleted)
      = some listing)
    (hself : listing.sellerId ≠ userID) :
    (∀ chat, db.chats.find? (fun ch =>
        ch.listingId == input.listingId && ch.buyerId == userID) = some chat →
      (CreateChat db userID input now).status = 200 ∧
      (CreateChat db userID input now).db.notifications = db.notifications) ∧
    (db.chats.find? (fun ch =>
        ch.listingId == input.listingId && ch.buyerId == userID) = none →
      (CreateChat db userID input now).status = 201 ∧
      ∃ n : Notification,
        (CreateChat db userID input now).db.notifications
          = db.notifications ++ [n] ∧
        n.userId = listing.sellerId) := by
  have hs : (listing.sellerId == userID) = false := by simp [hself]
  constructor
  · intro chat hchat
    simp [CreateChat, hbind, hlist, hs, hchat]
  · intro hnone
    refine ⟨by simp [CreateChat, hbind, hlist, hs, hnone],
      ⟨{ id := db.nextNotificationId, createdAt := now,
         userId := listing.sellerId, ntype := "new_message",
         title := "New Message",
         message := "You have a new message about your listing: "
           ++ listing.title,
         link := "/chat/" ++ toString db.nextChatId,
         isRead := false, readAt := none },
       by simp [CreateChat, hbind, hlist, hs, hnone], rfl⟩⟩

/-- C1 witness: the amended theorem evaluated in the appending branch
(state `chatDB`, which already holds buyer 3's chat on listing 1). -/
theorem createChat_notifies_seller_only_on_new_chat_witness :
    ((firstMsgInput.listingId == 0 || firstMsgInput.message == "") = false) ∧
    (chatDB.listings.find?
        (fun l => l.id == firstMsgInput.listingId && !l.deleted)
      = some exListing) ∧
    (exListing.sellerId ≠ 3) ∧
    ((∀ chat, chatDB.chats.find? (fun ch =>
          ch.listingId == firstMsgInput.listingId && ch.buyerId == 3)
            = some chat →
        (CreateChat chatDB 3 firstMsgInput 10).status = 200 ∧
        (CreateChat chatDB 3 firstMsgInput 10).db.notifications
          = chatDB.notifications) ∧
     (chatDB.chats.find? (fun ch =>
          ch.listingId == firstMsgInput.listingId && ch.buyerId == 3) = none →
        (CreateChat chatDB 3 firstMsgInput 10).status = 201 ∧
        ∃ n : Notification,
          (CreateChat chatDB 3 firstMsgInput 10).db.notifications
            = chatDB.notifications ++ [n] ∧
          n.userId = exListing.sellerId)) :=
  ⟨by decide, by decide, by decide,
   createChat_notifies_seller_only_on_new_chat chatDB 3 10 firstMsgInput
     exListing (by decide) (by decide) (by decide)⟩

/-- C2: fetching a chat's message list as a participant succeeds and
applies `markRead` to every stored message; `markRead` leaves every
message authored by the caller unchanged (its `is_read` and `read_at`
are untouched) and turns every previously-unread message from anyone
else in this chat into `is_read=true` with the non-null timestamp
`some now`. -/
theorem getChatMessages_read_on_view (db : DB) (userID cid now : Nat)
    (chat : Chat)
    (hfind : db.chats.find? (fun ch => ch.id == cid) = some chat)
    (hpart : chat.buyerId = userID ∨ chat.sellerId = userID) :
    (GetChatMessages db userID cid now).status = 200 ∧
    (GetChatMessages db userID cid now).db.messages
      = db.messages.map (markRead userID cid now) ∧
    (∀ m : Message, m.senderId = userID → markRead userID cid now m = m) ∧
    (∀ m : Message, m.chatId = cid → m.senderId ≠ userID → m.isRead = false →
      (markRead userID cid now m).isRead = true ∧
      (markRead userID cid now m).readAt = some now) := by
  have hp : (chat.buyerId != userID && chat.sellerId != userID) = false := by
    rcases hpart with h | h <;> simp [h]
  refine ⟨?_, ?_, ?_, ?_⟩
  · simp [GetChatMessages, hfind, hp]
  · simp [GetChatMessages, hfind, hp]
  · intro m hm
    simp [markRead, hm]
  · intro m hc hs hr
    constructor <;> simp [markRead, hc, hs, hr]

/-- C2 witness: seller 2 fetches chat 1 of `msgDB`; the buyer's unread
message is marked read at tick 10 and the seller's own message is
untouched. -/
theorem getChatMessages_read_on_view_witness :
    (msgDB.chats.find? (fun ch => ch.id == 1) = some exChat) ∧
    (exChat.buyerId = 2 ∨ exChat.sellerId = 2) ∧
    ((GetChatMessages msgDB 2 1 10).status = 200 ∧
     (GetChatMessages msgDB 2 1 10).db.messages
       = msgDB.messages.map (markRead 2 1 10) ∧
     (∀ m : Message, m.senderId = 2 → markRead 2 1 10 m = m) ∧
     (∀ m : Message, m.chatId = 1 → m.senderId ≠ 2 → m.isRead = false →
       (markRead 2 1 10 m).isRead = true ∧
       (markRead 2 1 10 m).readAt = some 10)) :=
  ⟨by decide, Or.inr (by decide),
   getChatMessages_read_on_view msgDB 2 1 10 exChat (by decide)
     (Or.inr (by decide))⟩

/-- C4 counterexample: registering "Alice@ufl.edu" succeeds and stores
the lowercased address; re-registering as "ALICE@ufl.edu" slips past
the case-sensitive duplicate check on the raw input and then hits the
unique index on the stored lowercased email, so the second attempt
fails with HTTP 500, not the claimed 409 Conflict. -/
theorem register_mixed_case_counterexample :
    (Register emptyDB regAlice).status = 201 ∧
    (Register (Register emptyDB regAlice).db regAliceUpper).status = 500 ∧
    (Register (Register emptyDB regAlice).db regAliceUpper).status ≠ 409 := by
  decide

/-- C4 (amended): after a successful registration, a second attempt
with the same email in any casing never succeeds — it fails with 409
Conflict when the raw second email matches a stored email exactly
(case-sensitively), and otherwise with 500 Internal from the unique
index on the stored lowercased email. -/
theorem register_duplicate_email_never_succeeds (db : DB)
    (i1 i2 : RegisterInput)
    (hlower : strToLower i2.email = strToLower i1.email)
    (hb2 : registerBindingOk i2 = true)
    (h1 : (Register db i1).status = 201) :
    (Register (Register db i1).db i2).status = 409 ∨
    (Register (Register db i1).db i2).status = 500 := by
  have hm1 : (mkUser db i1).email = strToLower i1.email := rfl
  have hb1 : registerBindingOk i1 = true := by
    cases h : registerBindingOk i1
    · simp only [Register, h] at h1
      simp at h1
    · rfl
  have hsuf : strEndsWith (strToLower i1.email) "@ufl.edu" = true := by
    cases h : strEndsWith (strToLower i1.email) "@ufl.edu"
    · simp only [Register, hb1, h] at h1
      simp at h1
    · rfl
  have hfind : db.users.find? (fun u => u.email == i1.email) = none := by
    cases h : db.users.find? (fun u => u.email == i1.email) with
    | none => rfl
    | some u =>
      simp only [Register, hb1, hsuf, h] at h1
      simp at h1
  have hany : db.users.any (fun v => v.email == strToLower i1.email) = false := by
    cases h : db.users.any (fun v => v.email == strToLower i1.email)
    · rfl
    · simp only [Register, hb1, hsuf, hfind, hm1, h] at h1
      simp at h1
  have hdb1 : (Register db i1).db
      = { db with users := db.users ++ [mkUser db i1],
                  nextUserId := db.nextUserId + 1 } := by
    simp only [Register, hb1, hsuf, hfind, hm1, hany]
    simp
  rw [hdb1]
  set db1 : DB := { db with users := db.users ++ [mkUser db i1],
                            nextUserId := db.nextUserId + 1 } with hdb1def
  have hu1 : db1.users = db.users ++ [mkUser db i1] := rfl
  have hm2 : (mkUser db1 i2).email = strToLower i2.email := rfl
  have hsuf2 : strEndsWith (strToLower i2.email) "@ufl.edu" = true := by
    rw [hlower]; exact hsuf
  cases hfind2 : db1.users.find? (fun u => u.email == i2.email) with
  | some u =>
    left
    simp only [Register, hb2, hsuf2, hfind2]
    simp
  | none =>
    right
    have hone : ((mkUser db i1).email == strToLower i2.email) = true := by
      rw [hm1, hlower]
      exact beq_self_eq_true _
    have hany2 : db1.users.any (fun v => v.email == strToLower i2.email)
        = true := by
      rw [hu1, List.any_append]
      simp only [List.any_cons, List.any_nil, hone, Bool.true_or, Bool.or_true]
    simp only [Register, hb2, hsuf2, hfind2, hm2, hany2]
    simp

/-- C4 witness: the amended theorem evaluated on the two concrete
mixed-case registrations. -/
theorem register_duplicate_email_witness :
    (strToLower regAliceUpper.email = strToLower regAlice.email) ∧
    (registerBindingOk regAliceUpper = true) ∧
    ((Register emptyDB regAlice).status = 201) ∧
    ((Register (Register emptyDB regAlice).db regAliceUpper).status = 409 ∨
     (Register (Register emptyDB regAlice).db regAliceUpper).status = 500) :=
  ⟨by decide, by decide, by decide,
   register_duplicate_email_never_succeeds emptyDB regAlice regAliceUpper
     (by decide) (by decide) (by decide)⟩

/-- C8: two successive successful create-or-append calls by the same
buyer on the same listing (with arbitrary, possibly different message
texts) return the same `chat_id`: the first either appends to the
existing `(listing_id, buyer_id)` chat (200) or creates it (201), and
the second always finds that chat and appends (200). -/
theorem createChat_dedup (db : DB) (userID now1 now2 : Nat)
    (i1 i2 : CreateChatInput) (listing : Listing)
    (hsame : i2.listingId = i1.listingId)
    (hb1 : (i1.listingId == 0 || i1.message == "") = false)
    (hb2 : (i2.listingId == 0 || i2.message == "") = false)
    (hlist : db.listings.find? (fun l => l.id == i1.listingId && !l.deleted)
      = some listing)
    (hself : listing.sellerId ≠ userID) :
    ((CreateChat db userID i1 now1).status = 200 ∨
     (CreateChat db userID i1 now1).status = 201) ∧
    (CreateChat (CreateChat db userID i1 now1).db userID i2 now2).status
      = 200 ∧
    (CreateChat (CreateChat db userID i1 now1).db userID i2 now2).chatId
      = (CreateChat db userID i1 now1).chatId ∧
    (CreateChat db userID i1 now1).chatId.isSome = true := by
  obtain ⟨lid2, msg2⟩ := i2
  have hsame' : lid2 = i1.listingId := hsame
  subst hsame'
  cases hchat : db.chats.find? (fun ch =>
      ch.listingId == i1.listingId && ch.buyerId == userID) with
  | some c =>
    obtain ⟨st1, cid1, ls1, cs1⟩ :=
      createChat_append_case db userID now1 i1 listing c hb1 hlist hself hchat
    have hl2 : (CreateChat db userID i1 now1).db.listings.find?
        (fun l => l.id == i1.listingId && !l.deleted) = some listing := by
      rw [ls1]; exact hlist
    have hpred : ∀ x : Chat,
        ((if x.id == c.id then { x with updatedAt := now1 } else x).listingId
            == i1.listingId &&
          (if x.id == c.id then { x with updatedAt := now1 } else x).buyerId
            == userID)
          = (x.listingId == i1.listingId && x.buyerId == userID) := by
      intro x
      split <;> rfl
    have hc2 : (CreateChat db userID i1 now1).db.chats.find?
        (fun ch => ch.listingId == i1.listingId && ch.buyerId == userID)
        = some (if c.id == c.id then { c with updatedAt := now1 } else c) := by
      rw [cs1, find?_map_pred_eq _ _ _ hpred, hchat]
      rfl
    obtain ⟨st2, cid2, -, -⟩ :=
      createChat_append_case (CreateChat db userID i1 now1).db userID now2
        ⟨i1.listingId, msg2⟩ listing _ hb2 hl2 hself hc2
    refine ⟨Or.inl st1, st2, ?_, ?_⟩
    · rw [cid2, cid1]
      simp
    · rw [cid1]; rfl
  | none =>
    obtain ⟨st1, cid1, ls1, cs1⟩ :=
      createChat_create_case db userID now1 i1 listing hb1 hlist hself hchat
    have hl2 : (CreateChat db userID i1 now1).db.listings.find?
        (fun l => l.id == i1.listingId && !l.deleted) = some listing := by
      rw [ls1]; exact hlist
    have hc2 : (CreateChat db userID i1 now1).db.chats.find?
        (fun ch => ch.listingId == i1.listingId && ch.buyerId == userID)
        = some { id := db.nextChatId, createdAt := now1, updatedAt := now1,
                 listingId := i1.listingId, buyerId := userID,
                 sellerId := listing.sellerId } := by
      rw [cs1, find?_append_none _ _ _ hchat]
      simp
    obtain ⟨st2, cid2, -, -⟩ :=
      createChat_append_case (CreateChat db userID i1 now1).db userID now2
        ⟨i1.listingId, msg2⟩ listing _ hb2 hl2 hself hc2
    refine ⟨Or.inr st1, st2, ?_, ?_⟩
    · rw [cid2, cid1]
    · rw [cid1]; rfl

/-- C8 witness: buyer 3 sends "one" then "two" on listing 1 of
`freshChatDB`; the first call creates chat 1 (201), the second appends
to it (200), and both responses carry the same `chat_id`. -/
theorem createChat_dedup_witness :
    (({ listingId := 1, message := "two" } : CreateChatInput).listingId
      = ({ listingId := 1, message := "one" } : CreateChatInput).listingId) ∧
    (freshChatDB.listings.find? (fun l => l.id == 1 && !l.deleted)
      = some exListing) ∧
    (exListing.sellerId ≠ 3) ∧
    (((CreateChat freshChatDB 3 { listingId := 1, message := "one" } 10).status
        = 200 ∨
      (CreateChat freshChatDB 3 { listingId := 1, message := "one" } 10).status
        = 201) ∧
     (CreateChat
        (CreateChat freshChatDB 3 { listingId := 1, message := "one" } 10).db
        3 { listingId := 1, message := "two" } 11).status = 200 ∧
     (CreateChat
        (CreateChat freshChatDB 3 { listingId := 1, message := "one" } 10).db
        3 { listingId := 1, message := "two" } 11).chatId
       = (CreateChat freshChatDB 3
           { listingId := 1, message := "one" } 10).chatId ∧
     (CreateChat freshChatDB 3
        { listingId := 1, message := "one" } 10).chatId.isSome = true) :=
  ⟨by decide, by decide, by decide,
   createChat_dedup freshChatDB 3 10 11 { listingId := 1, message := "one" }
     { listingId := 1, message := "two" } exListing (by decide) (by decide)
     (by decide) (by decide) (by decide)⟩

/-- C6: a listing whose status is not "active" (e.g. "sold") never
appears in the results of the list/search endpoint regardless of the
filters supplied, yet fetching it directly by id succeeds and returns
it (with its view counter incremented). -/
theorem inactive_listing_hidden_but_fetchable (db : DB) (l : Listing)
    (hmem : l ∈ db.listings) (hdel : l.deleted = false)
    (hstat : l.status ≠ "active")
    (hnd : (db.listings.map Listing.id).Nodup) :
    (∀ q : ListingQuery, l ∉ (GetListings db q).listings) ∧
    (GetListing db l.id).status = 200 ∧
    (GetListing db l.id).listing = some { l with views := l.views + 1 } := by
  have hfind := find?_listing_of_mem l db.listings hnd hmem hdel
  refine ⟨?_, ?_, ?_⟩
  · intro q hq
    have hq' : l ∈ ((sortLe (listingLe q.sortBy q.sortOrder)
        (db.listings.filter (matchesFilter q))).drop
          ((q.page - 1) * q.limit)).take q.limit := hq
    have h2 := List.drop_subset _ _ (List.take_subset _ _ hq')
    have h4 := (mem_sortLe _ _ _).mp h2
    have h5 : matchesFilter q l = true := (List.mem_filter.mp h4).2
    simp only [matchesFilter, Bool.and_eq_true] at h5
    obtain ⟨⟨⟨⟨⟨⟨-, hst⟩, -⟩, -⟩, -⟩, -⟩, -⟩ := h5
    exact hstat (by simpa using hst)
  · simp [GetListing, hfind]
  · simp [GetListing, hfind]

/-- C6 witness: the sold listing of `soldDB` is hidden from every
search but directly fetchable. -/
theorem inactive_listing_hidden_but_fetchable_witness :
    (soldListing ∈ soldDB.listings) ∧ (soldListing.deleted = false) ∧
    (soldListing.status ≠ "active") ∧
    ((soldDB.listings.map Listing.id).Nodup) ∧
    ((∀ q : ListingQuery, soldListing ∉ (GetListings soldDB q).listings) ∧
     (GetListing soldDB soldListing.id).status = 200 ∧
     (GetListing soldDB soldListing.id).listing
       = some { soldListing with views := soldListing.views + 1 }) :=
  ⟨by decide, by decide, by decide, by decide,
   inactive_listing_hidden_but_fetchable soldDB soldListing (by decide)
     (by decide) (by decide) (by decide)⟩

/-- C3: for every filter set and positive page size, the listing pages
(each computed with offset `(page-1) * limit`) partition the matching
rows: the item counts over pages `1..pages` sum to `total`,
`pages = ceil(total / limit)` as computed by `(total + limit - 1) / limit`,
and any page beyond `pages` yields an empty listings array while
`total` is independent of the requested page. -/
theorem getListings_pagination (db : DB) (q : ListingQuery)
    (hlimit : 1 ≤ q.limit) (hpage : 1 ≤ q.page) :
    (GetListings db q).pages
      = ((GetListings db q).total + q.limit - 1) / q.limit ∧
    ((List.range (GetListings db q).pages).map
        (fun i => (GetListings db { q with page := i + 1 }).listings.length)).sum
      = (GetListings db q).total ∧
    ((GetListings db q).pages < q.page → (GetListings db q).listings = []) ∧
    (∀ p : Nat, (GetListings db { q with page := p }).total
      = (GetListings db q).total) := by
  have hlen : (sortLe (listingLe q.sortBy q.sortOrder)
      (db.listings.filter (matchesFilter q))).length
      = (db.listings.filter (matchesFilter q)).length := length_sortLe _ _
  refine ⟨rfl, ?_, ?_, fun p => rfl⟩
  · have hbound : (sortLe (listingLe q.sortBy q.sortOrder)
        (db.listings.filter (matchesFilter q))).length
        ≤ (((db.listings.filter (matchesFilter q)).length + q.limit - 1)
            / q.limit) * q.limit := by
      rw [hlen]
      exact le_ceil_mul _ _ hlimit
    have hsum := sum_chunk_lengths q.limit
      (((db.listings.filter (matchesFilter q)).length + q.limit - 1) / q.limit)
      (sortLe (listingLe q.sortBy q.sortOrder)
        (db.listings.filter (matchesFilter q))) hbound
    rw [hlen] at hsum
    exact hsum
  · intro hlt
    have hlt' : ((db.listings.filter (matchesFilter q)).length + q.limit - 1)
        / q.limit < q.page := hlt
    show ((sortLe (listingLe q.sortBy q.sortOrder)
        (db.listings.filter (matchesFilter q))).drop
          ((q.page - 1) * q.limit)).take q.limit = []
    have hle : (sortLe (listingLe q.sortBy q.sortOrder)
        (db.listings.filter (matchesFilter q))).length
        ≤ (q.page - 1) * q.limit := by
      rw [hlen]
      have h1 := le_ceil_mul (db.listings.filter (matchesFilter q)).length
        q.limit hlimit
      have h2 : ((db.listings.filter (matchesFilter q)).length + q.limit - 1)
          / q.limit ≤ q.page - 1 := by omega
      exact h1.trans (Nat.mul_le_mul_right _ h2)
    rw [List.drop_eq_nil_of_le hle, List.take_nil]

/-- C3 witness: the pagination law evaluated on a store with three
matching listings and page size 2, requested at page 3 (past the end). -/
theorem getListings_pagination_witness :
    (1 ≤ pageQuery.limit) ∧ (1 ≤ pageQuery.page) ∧
    ((GetListings pageDB pageQuery).pages
       = ((GetListings pageDB pageQuery).total + pageQuery.limit - 1)
           / pageQuery.limit ∧
     ((List.range (GetListings pageDB pageQuery).pages).map
         (fun i => (GetListings pageDB
           { pageQuery with page := i + 1 }).listings.length)).sum
       = (GetListings pageDB pageQuery).total ∧
     ((GetListings pageDB pageQuery).pages < pageQuery.page →
       (GetListings pageDB pageQuery).listings = []) ∧
     (∀ p : Nat, (GetListings pageDB { pageQuery with page := p }).total
       = (GetListings pageDB pageQuery).total)) :=
  ⟨by decide, by decide,
   getListings_pagination pageDB pageQuery (by decide) (by decide)⟩

end Marketplace
